import Mathlib

/-!
Verification development for the torbox CLI (Go). The definitions below are a
shallow embedding of the source: the MD5 digest used by the integrity check,
the go-glob matcher used for file selection, the size formatter
HumanReadableSize, the shell marshaller Marshell, the torrent selector of the
download subcommand, and the per-file fetch pipeline (pre-flight skip check,
link resolution, retry loop with exponential backoff, streaming download,
post-download digest comparison).
-/

namespace Torbox

/-- Byte strings are lists of naturals below 256. -/
abbrev Bytes := List Nat

/-! MD5 (crypto/md5): 32-bit words are naturals reduced mod 2^32. -/

def m32 (x : Nat) : Nat := x % 4294967296

def rotl32 (x s : Nat) : Nat := m32 (x <<< s) ||| (x >>> (32 - s))

/-- Round constants K of MD5. -/
def md5K : List Nat :=
  [0xd76aa478, 0xe8c7b756, 0x242070db, 0xc1bdceee,
   0xf57c0faf, 0x4787c62a, 0xa8304613, 0xfd469501,
   0x698098d8, 0x8b44f7af, 0xffff5bb1, 0x895cd7be,
   0x6b901122, 0xfd987193, 0xa679438e, 0x49b40821,
   0xf61e2562, 0xc040b340, 0x265e5a51, 0xe9b6c7aa,
   0xd62f105d, 0x02441453, 0xd8a1e681, 0xe7d3fbc8,
   0x21e1cde6, 0xc33707d6, 0xf4d50d87, 0x455a14ed,
   0xa9e3e905, 0xfcefa3f8, 0x676f02d9, 0x8d2a4c8a,
   0xfffa3942, 0x8771f681, 0x6d9d6122, 0xfde5380c,
   0xa4beea44, 0x4bdecfa9, 0xf6bb4b60, 0xbebfbc70,
   0x289b7ec6, 0xeaa127fa, 0xd4ef3085, 0x04881d05,
   0xd9d4d039, 0xe6db99e5, 0x1fa27cf8, 0xc4ac5665,
   0xf4292244, 0x432aff97, 0xab9423a7, 0xfc93a039,
   0x655b59c3, 0x8f0ccc92, 0xffeff47d, 0x85845dd1,
   0x6fa87e4f, 0xfe2ce6e0, 0xa3014314, 0x4e0811a1,
   0xf7537e82, 0xbd3af235, 0x2ad7d2bb, 0xeb86d391]

/-- Per-round left-rotation amounts of MD5. -/
def md5S : List Nat :=
  [7, 12, 17, 22, 7, 12, 17, 22, 7, 12, 17, 22, 7, 12, 17, 22,
   5, 9, 14, 20, 5, 9, 14, 20, 5, 9, 14, 20, 5, 9, 14, 20,
   4, 11, 16, 23, 4, 11, 16, 23, 4, 11, 16, 23, 4, 11, 16, 23,
   6, 10, 15, 21, 6, 10, 15, 21, 6, 10, 15, 21, 6, 10, 15, 21]

def md5F (i b c d : Nat) : Nat :=
  if i < 16 then (b &&& c) ||| ((b ^^^ 0xffffffff) &&& d)
  else if i < 32 then (d &&& b) ||| ((d ^^^ 0xffffffff) &&& c)
  else if i < 48 then b ^^^ c ^^^ d
  else c ^^^ (b ||| (d ^^^ 0xffffffff))

def md5G (i : Nat) : Nat :=
  if i < 16 then i
  else if i < 32 then (5 * i + 1) % 16
  else if i < 48 then (3 * i + 5) % 16
  else (7 * i) % 16

/-- Little-endian 32-bit word number j of a 64-byte block. -/
def wordAt (block : Bytes) (j : Nat) : Nat :=
  block.getD (4 * j) 0 + 256 * block.getD (4 * j + 1) 0 +
    65536 * block.getD (4 * j + 2) 0 + 16777216 * block.getD (4 * j + 3) 0

structure MD5State where
  a : Nat
  b : Nat
  c : Nat
  d : Nat
deriving DecidableEq, Repr

def md5Step (block : Bytes) (st : MD5State) (i : Nat) : MD5State :=
  let f := m32 (md5F i st.b st.c st.d + st.a + md5K.getD i 0 + wordAt block (md5G i))
  ⟨st.d, m32 (st.b + rotl32 f (md5S.getD i 0)), st.b, st.c⟩

def md5Block (st : MD5State) (block : Bytes) : MD5State :=
  let r := (List.range 64).foldl (md5Step block) st
  ⟨m32 (st.a + r.a), m32 (st.b + r.b), m32 (st.c + r.c), m32 (st.d + r.d)⟩

def md5Init : MD5State := ⟨0x67452301, 0xefcdab89, 0x98badcfe, 0x10325476⟩

/-- Little-endian encoding of the 64-bit message bit length. -/
def le64 (n : Nat) : Bytes := (List.range 8).map (fun i => (n >>> (8 * i)) % 256)

/-- MD5 padding: 0x80, zeros to 56 mod 64, then the bit length. -/
def md5Pad (msg : Bytes) : Bytes :=
  msg ++ [0x80] ++ List.replicate ((119 - msg.length % 64) % 64) 0 ++
    le64 ((msg.length * 8) % 2 ^ 64)

def chunksAux : Nat → Bytes → List Bytes
  | 0, _ => []
  | fuel + 1, l => if l = [] then [] else l.take 64 :: chunksAux fuel (l.drop 64)

/-- Split a padded message into 64-byte blocks (fuel-based so that it
reduces inside the kernel; the fuel l.length always suffices). -/
def chunks64 (l : Bytes) : List Bytes := chunksAux l.length l

def le4 (n : Nat) : Bytes := [n % 256, n / 256 % 256, n / 65536 % 256, n / 16777216 % 256]

def md5Digest (msg : Bytes) : Bytes :=
  let st := (chunks64 (md5Pad msg)).foldl md5Block md5Init
  le4 st.a ++ le4 st.b ++ le4 st.c ++ le4 st.d

def hexDigit (n : Nat) : Char := if n < 10 then Char.ofNat (48 + n) else Char.ofNat (87 + n)

def byteHex (b : Nat) : List Char := [hexDigit (b / 16), hexDigit (b % 16)]

/-- Lowercase hex rendering of the MD5 digest, as produced by
the Go expression applying the x format verb to hash.Sum(nil). -/
def md5Hex (msg : Bytes) : String := String.mk (((md5Digest msg).map byteHex).flatten)

/-! The glob matcher (github.com/ryanuber/go-glob, function Glob), used by the
download subcommand to select files. Only the star character is special. -/

def star : Char := '*'

/-- strings.Split of the pattern on the star character. -/
def splitOnStar : List Char → List (List Char)
  | [] => [[]]
  | c :: cs =>
    match splitOnStar cs with
    | [] => [[]]
    | p :: ps => if c = star then [] :: p :: ps else (c :: p) :: ps

/-- strings.Index: position of the first occurrence of needle, none if absent. -/
def findSub (needle : List Char) : List Char → Option Nat
  | [] => if needle.isPrefixOf ([] : List Char) then some 0 else none
  | c :: tl =>
    if needle.isPrefixOf (c :: tl) then some 0 else (findSub needle tl).map (· + 1)

/-- The loop of go-glob over the middle pattern parts, and the final
trailing-glob-or-suffix check. -/
def globMid (trailingGlob : Bool) : List (List Char) → List Char → Bool
  | [], _ => true
  | [plast], subj => trailingGlob || plast.isSuffixOf subj
  | p :: q :: rest, subj =>
    match findSub p subj with
    | none => false
    | some idx => globMid trailingGlob (q :: rest) (subj.drop (idx + p.length))

/-- go-glob Glob on character lists: empty pattern matches only the empty
subject, a lone star matches everything, a star-free pattern requires
equality, otherwise the parts between stars are located left to right
with the leading and trailing parts anchored unless the pattern starts
or ends with a star. -/
def goGlobChars (pattern subj : List Char) : Bool :=
  if pattern = [] then subj == pattern
  else if pattern = [star] then true
  else
    let parts := splitOnStar pattern
    if parts.length = 1 then subj == pattern
    else
      let leadingGlob := pattern.head? == some star
      match parts with
      | [] => true
      | p0 :: rest =>
        match findSub p0 subj with
        | none => false
        | some idx =>
          if !leadingGlob && idx ≠ 0 then false
          else globMid (pattern.getLast? == some star) rest (subj.drop (idx + p0.length))

def Glob (pattern subj : String) : Bool := goGlobChars pattern.toList subj.toList

/-! The selector of the download subcommand (the revision of main.go that
takes a torrent hint and an optional file glob). -/

/-- strings.Contains: sub occurs somewhere inside s. -/
def goContains (s sub : String) : Bool := (findSub sub.toList s.toList).isSome

/-- Digit-string value, none when empty or containing a non-digit
(strconv base-10 syntax for the part after the sign). -/
def parseDigits (cs : List Char) : Option Nat :=
  if cs.isEmpty then none
  else if cs.all Char.isDigit then
    some (cs.foldl (fun a c => a * 10 + (c.toNat - 48)) 0)
  else none

/-- strconv.ParseInt(s, 10, 32): returns the parsed value and an ok flag.
On a syntax error the value is 0; on a range error it is the nearest
32-bit bound; in both cases the flag is false (err non-nil in Go). -/
def parseInt32 (s : String) : Int × Bool :=
  let cs := s.toList
  let signAndDigits : Bool × List Char :=
    match cs with
    | c :: rest => if c = '-' then (true, rest) else if c = '+' then (false, rest) else (false, cs)
    | [] => (false, [])
  match parseDigits signAndDigits.2 with
  | none => (0, false)
  | some n =>
    let v : Int := if signAndDigits.1 then -(n : Int) else (n : Int)
    if v > 2147483647 then (2147483647, false)
    else if v < -2147483648 then (-2147483648, false)
    else (v, true)

/-- TorboxTorrentFile: id, expected MD5 checksum (may be empty), path name,
size (int64), short name. The MIME type is informational only and omitted. -/
structure GoFile where
  id : Nat
  md5 : String
  name : String
  size : Int
  shortName : String
deriving DecidableEq, Repr

/-- TorboxTorrent, restricted to the fields the selector and the download
loop read: identifier, display name, files. -/
structure Torrent where
  id : Int
  name : String
  files : List GoFile
deriving DecidableEq, Repr

inductive SelectResult where
  | found (id : Int)
  | notFound (hint : String)
deriving DecidableEq, Repr

/-- The torrent selector of the download subcommand: ParseInt the hint with
bit size 32; the loop comparing torrent identifiers runs only when err is
non-nil (the condition in the source is err != nil); if that finds nothing,
a substring search of the hint against torrent names; if both fail, the
error message naming the hint is printed and the process exits. -/
def findTorrent (ts : List Torrent) (hint : String) : SelectResult :=
  let p := parseInt32 hint
  let byId := if p.2 = false then ts.find? (fun t => t.id == p.1) else none
  match byId with
  | some t => .found t.id
  | none =>
    match ts.find? (fun t => goContains t.name hint) with
    | some t => .found t.id
    | none => .notFound hint

/-! HumanReadableSize and its Go format verb. -/

/-- The Go verb with width 3 and an empty precision (precision zero) applied
to an integer: zero renders as the empty digit string, everything is
space-padded on the left to width 3. -/
def goPad3 (n : Int) : String :=
  let digits := if n = 0 then "" else toString n
  if digits.length < 3 then String.mk (List.replicate (3 - digits.length) ' ') ++ digits
  else digits

def hrUnits : List String := ["B", "KiB", "MiB", "GiB", "TiB"]

def hrLoop : List String → Int → String
  | [], _ => "?iB"
  | u :: us, size => if size < 1024 then goPad3 size ++ " " ++ u else hrLoop us (size / 1024)

/-- HumanReadableSize from the source: repeatedly divide by 1024 until the
value fits under the current unit, falling back to the sentinel. -/
def HumanReadableSize (size : Int) : String := hrLoop hrUnits size

/-! Marshell, the shell marshaller. -/

def squoteChar : Char := Char.ofNat 39

def marshellSpecials : List Char := [' ', '?', '[', ']', '#', '$', Char.ofNat 34]

/-- The loop body of Marshell applied to each argument in order: an argument
containing a single quote is wrapped in double quotes, otherwise an argument
containing one of the special characters is wrapped in single quotes,
otherwise it is left alone. Each result is stored back into the argument
array of the command. -/
def marshellArgs : List String → List String
  | [] => []
  | arg :: rest =>
    (if arg.toList.contains squoteChar then "\x22" ++ arg ++ "\x22"
     else if arg.toList.any (fun c => marshellSpecials.contains c) then "\x27" ++ arg ++ "\x27"
     else arg) :: marshellArgs rest

/-- An exec.Cmd reduced to its argument vector (Args includes the program
name at index 0, as in Go). -/
structure Cmd where
  args : List String
deriving DecidableEq, Repr

/-- Marshell: rewrites the argument array of the command in place and
returns the space-joined result. The returned Cmd is the state of the
command object after the call. -/
def Marshell (cmd : Cmd) : String × Cmd :=
  let newArgs := marshellArgs cmd.args
  (String.intercalate " " newArgs, ⟨newArgs⟩)

/-- Models path/filepath Dir from the Go standard library for cleaned
slash-separated paths: everything before the final separator, a dot when
there is none, the root when only the root remains. -/
def goDir (p : String) : String :=
  let cs := p.toList
  if cs.contains '/' then
    let pre := ((cs.reverse.dropWhile (fun c => c ≠ '/')).drop 1).reverse
    if pre = [] then "/" else String.mk pre
  else "."

/-! The transfer pipeline of the download loop (skippable pre-flight check,
link resolution, link validation, retry loop with exponential backoff,
streaming download with inline digest, post-download digest comparison). -/

/-- One HTTP exchange as the client observes it: a transport error (err
non-nil from client.Do) or a response with a status code and a body. -/
inductive HResp where
  | err
  | ok (status : Nat) (body : Bytes)

/-- The remote world one download loop iteration interacts with, keyed by
file identifier: the requestdl response, the decoded downloadRequest.Data
URL, the response of the validation GET against that URL, and the response
of each attempt of the retry loop. -/
structure Remote where
  resolveResp : Nat → HResp
  resolveData : Nat → String
  validateResp : Nat → HResp
  fetchResp : Nat → Nat → HResp

/-- A network access: the requestdl GET or a GET against a resolved URL. -/
inductive NetEv where
  | resolve (tid : Int) (fid : Nat)
  | get (url : String)
deriving DecidableEq, Repr

inductive Outcome where
  | Downloaded
  | Skipped
  | ChecksumMismatch
deriving DecidableEq, Repr

/-- The local filesystem as a lookup list from path to content; a later
write for a name shadows earlier entries. -/
abbrev Fs := List (String × Bytes)

def fsGet (fs : Fs) (name : String) : Option Bytes :=
  (fs.find? (fun p => p.1 == name)).map (fun p => p.2)

def fsSet (fs : Fs) (name : String) (content : Bytes) : Fs := (name, content) :: fs

/-- Append-mode write (the destination is opened with O_APPEND and
O_CREATE): new bytes go after whatever the file already holds. -/
def fsAppend (fs : Fs) (name : String) (bytes : Bytes) : Fs :=
  fsSet fs name ((fsGet fs name).getD [] ++ bytes)

inductive VerifyResult where
  | Match
  | Mismatch
  | Missing
  | Unknown
deriving DecidableEq, Repr

/-- The integrity check of the download loop: stat the destination; a
missing file is Missing; a size difference is Mismatch without hashing; an
empty expected checksum with a matching size is Unknown; otherwise the full
content is streamed through MD5 and compared against the expected lowercase
hex digest. -/
def verify (fs : Fs) (f : GoFile) : VerifyResult :=
  match fsGet fs f.name with
  | none => .Missing
  | some bytes =>
    if (bytes.length : Int) = f.size then
      if f.md5 = "" then .Unknown
      else if md5Hex bytes = f.md5 then .Match else .Mismatch
    else .Mismatch

/-- The pre-flight skip condition exactly as the source tests it: the file
exists with the expected size, and either no checksum was provided or the
computed digest equals the expected one. -/
def skipCheck (fs : Fs) (f : GoFile) : Bool :=
  match fsGet fs f.name with
  | none => false
  | some bytes =>
    if (bytes.length : Int) = f.size then
      if f.md5 = "" then true else md5Hex bytes == f.md5
    else false

/-- Result of the bounded retry loop: a transport error aborts the process
(fatal); otherwise the loop hands a response body to the streaming step,
remembering whether it broke out on status 200 or merely ran out of
attempts (in which case the body is the one of the last failed response). -/
inductive RetryRes where
  | fatal (evs : List NetEv) (slept attempts : Nat)
  | proceed (evs : List NetEv) (slept attempts : Nat) (body : Bytes) (gotOK : Bool)
deriving DecidableEq, Repr

/-- The retry loop over the remaining attempt indices: a transport error is
fatal immediately, status 200 breaks out, any other status sleeps two to
the attempt index seconds and retries. -/
def retryList (resp : Nat → HResp) (url : String) :
    List Nat → Nat → Nat → List NetEv → Bytes → RetryRes
  | [], done, slept, evs, lastBody => .proceed evs slept done lastBody false
  | i :: rest, done, slept, evs, _lastBody =>
    match resp i with
    | .err => .fatal (evs ++ [.get url]) slept (done + 1)
    | .ok st body =>
      if st = 200 then .proceed (evs ++ [.get url]) slept (done + 1) body true
      else retryList resp url rest (done + 1) (slept + 2 ^ i) (evs ++ [.get url]) body

/-- The source loop runs the attempt index i from 0 through 9. -/
def retryLoop (resp : Nat → HResp) (url : String) : RetryRes :=
  retryList resp url (List.range 10) 0 0 [] []

structure FetchOut where
  outcome : Outcome
  fs : Fs
  events : List NetEv
  slept : Nat
deriving DecidableEq, Repr

/-- Result of one download-loop iteration: a per-file result, or a fatal
error that terminates the whole process. -/
inductive StepResult where
  | ok (out : FetchOut)
  | fatal (events : List NetEv) (slept : Nat)
deriving DecidableEq, Repr

/-- One iteration of the download loop over a selected file: the pre-flight
skip check short-circuits with no network traffic; otherwise the requestdl
GET and the validation GET against the resolved URL must both return 200
(anything else is fatal), the retry loop runs, the body it hands over is
appended to the destination while being digested, and the digest is
compared against the expected checksum, a mismatch being recorded as a
non-fatal per-file outcome. -/
def fetchFile (rm : Remote) (fs : Fs) (tid : Int) (f : GoFile) : StepResult :=
  if skipCheck fs f then .ok ⟨.Skipped, fs, [], 0⟩
  else
    match rm.resolveResp f.id with
    | .err => .fatal [.resolve tid f.id] 0
    | .ok st _ =>
      if st = 200 then
        let url := rm.resolveData f.id
        match rm.validateResp f.id with
        | .err => .fatal [.resolve tid f.id, .get url] 0
        | .ok st2 _ =>
          if st2 = 200 then
            match retryLoop (rm.fetchResp f.id) url with
            | .fatal evs slept _ => .fatal ([.resolve tid f.id, .get url] ++ evs) slept
            | .proceed evs slept _ body _ =>
              let fs1 := fsAppend fs f.name body
              let oc := if md5Hex body = f.md5 then Outcome.Downloaded else Outcome.ChecksumMismatch
              .ok ⟨oc, fs1, [.resolve tid f.id, .get url] ++ evs, slept⟩
          else .fatal [.resolve tid f.id, .get url] 0
      else .fatal [.resolve tid f.id] 0

inductive BatchRes where
  | fatal (done : List Outcome)
  | ok (outs : List Outcome) (fs : Fs)
deriving DecidableEq, Repr

def consRes (o : Outcome) : BatchRes → BatchRes
  | .fatal d => .fatal (o :: d)
  | .ok outs fs => .ok (o :: outs) fs

/-- The download loop over the files of a selected torrent, threading the
filesystem; a fatal error anywhere aborts the whole run, every other
outcome lets processing continue with the next file. -/
def runBatch (rm : Remote) (tid : Int) : Fs → List GoFile → BatchRes
  | _fs, [] => .ok [] _fs
  | fs, f :: rest =>
    match fetchFile rm fs tid f with
    | .fatal _ _ => .fatal []
    | .ok fo => consRes fo.outcome (runBatch rm tid fo.fs rest)

/-! The download loop of the revision with the no-download and null flags
(the variant that delegates the transfer to wget): its observable actions. -/

/-- An observable action of that loop: the requestdl GET, a GET against a
resolved URL, directory creation, execution of the transfer command, or a
line printed to standard output. -/
inductive Ev1 where
  | resolve (tid : Int) (fid : Nat)
  | get (url : String)
  | mkdir (dir : String)
  | run (args : List String)
  | emit (line : String)
deriving DecidableEq, Repr

inductive P1Res where
  | fatal (evs : List Ev1)
  | ok (evs : List Ev1)
deriving DecidableEq, Repr

def evsOf : P1Res → List Ev1
  | .fatal e => e
  | .ok e => e

/-- The wget invocation that loop builds for a file and a resolved URL. -/
def wgetArgs (f : GoFile) (url : String) : List String :=
  ["wget", "--continue", "--directory-prefix", goDir f.name, "--output-document", f.name, url]

/-- One iteration of that download loop: the null flag implies no-download;
the requestdl GET and the validation GET against the resolved URL must both
return 200 (anything else is fatal); the destination directory is created;
then either the marshalled wget command line is printed (no-download, with
a NUL or newline terminator) or wget is executed. -/
def processFileP1 (rm : Remote) (noDownload nulSep : Bool) (tid : Int) (f : GoFile) : P1Res :=
  let noDl := noDownload || nulSep
  match rm.resolveResp f.id with
  | .err => .fatal [.resolve tid f.id]
  | .ok st _ =>
    if st = 200 then
      let url := rm.resolveData f.id
      match rm.validateResp f.id with
      | .err => .fatal [.resolve tid f.id, .get url]
      | .ok st2 _ =>
        if st2 = 200 then
          let args := wgetArgs f url
          let base := [Ev1.resolve tid f.id, Ev1.get url, Ev1.mkdir (goDir f.name)]
          if noDl then
            .ok (base ++
              [.emit ((Marshell ⟨args⟩).1 ++ (if nulSep then String.mk [Char.ofNat 0] else "\n"))])
          else
            .ok (base ++ [.run args])
        else .fatal [.resolve tid f.id, .get url]
    else .fatal [.resolve tid f.id]

/-- The quoting rule as the specification describes it, one argument at a
time: wrap in double quotes on a single quote, else wrap in single quotes
on any of space, question mark, brackets, hash, dollar or double quote,
else leave the argument alone. -/
def claimQuoteArg (arg : String) : String :=
  if arg.toList.contains squoteChar then "\x22" ++ arg ++ "\x22"
  else if arg.toList.any (fun c =>
      c == ' ' || c == '?' || c == '[' || c == ']' || c == '#' || c == '$' || c == Char.ofNat 34)
    then "\x27" ++ arg ++ "\x27"
  else arg

/-! Concrete data used to evaluate the definitions on closed inputs. -/

/-- A one-byte file whose expected checksum is the MD5 digest of the byte
97 in lowercase hex. -/
def sampleFile : GoFile := ⟨7, "0cc175b9c0f1b6a831c399e269772661", "a", 1, "a"⟩

/-- A one-byte file with no expected checksum. -/
def fileNoMD5 : GoFile := ⟨8, "", "b", 1, "b"⟩

/-- A remote whose download attempts always return status 500. -/
def rmFail500 : Remote :=
  ⟨fun _ => HResp.ok 200 [], fun _ => "u", fun _ => HResp.ok 200 [], fun _ _ => HResp.ok 500 [98]⟩

/-- A remote that serves the correct one-byte body on the first attempt. -/
def rmOkA : Remote :=
  ⟨fun _ => HResp.ok 200 [], fun _ => "u", fun _ => HResp.ok 200 [], fun _ _ => HResp.ok 200 [97]⟩

/-- A remote that serves a body whose digest differs from the expected
checksum of sampleFile. -/
def rmWrong : Remote :=
  ⟨fun _ => HResp.ok 200 [], fun _ => "u", fun _ => HResp.ok 200 [], fun _ _ => HResp.ok 200 [98]⟩

/-- A remote used for the no-download loop; its streaming responses are
never consulted there. -/
def rmP1ok : Remote :=
  ⟨fun _ => HResp.ok 200 [], fun _ => "u", fun _ => HResp.ok 200 [], fun _ _ => HResp.err⟩

/-- Responses failing twice with status 500 and then succeeding. -/
def resp3 : Nat → HResp := fun i => if i < 2 then HResp.ok 500 [] else HResp.ok 200 [97]

/-- Responses failing with a transport error at once. -/
def respErr : Nat → HResp := fun _ => HResp.err

/-- Responses failing twice with status 500 and then by transport error. -/
def respErrAt2 : Nat → HResp := fun i => if i < 2 then HResp.ok 500 [] else HResp.err

/-- Responses always returning status 500. -/
def respAll500 : Nat → HResp := fun _ => HResp.ok 500 [98]

/-! Helper lemmas. -/

theorem string_eq_iff_toList (s t : String) : s = t ↔ s.toList = t.toList := by
  constructor
  · intro h; rw [h]
  · intro h
    cases s; cases t
    simp only [String.toList] at h
    rw [h]

theorem splitOnStar_no_star (l : List Char) (h : star ∉ l) : splitOnStar l = [l] := by
  induction l with
  | nil => rfl
  | cons c cs ih =>
    have hc : c ≠ star := fun hc => h (hc ▸ List.mem_cons_self c cs)
    have hcs : star ∉ cs := fun hm => h (List.mem_cons_of_mem c hm)
    simp [splitOnStar, ih hcs, hc]

theorem goGlobChars_no_star (p s : List Char) (h : star ∉ p) :
    goGlobChars p s = true ↔ p = s := by
  have hbeq : (s == p) = true ↔ p = s := by rw [beq_iff_eq]; exact eq_comm
  by_cases hp : p = []
  · subst hp
    unfold goGlobChars
    rw [if_pos rfl]
    exact hbeq
  · have hstar1 : p ≠ [star] := fun he => h (he ▸ List.mem_singleton.mpr rfl)
    unfold goGlobChars
    rw [if_neg hp, if_neg hstar1]
    simp only [splitOnStar_no_star p h, List.length_singleton, if_pos]
    exact hbeq

theorem skipCheck_eq_true_iff (fs : Fs) (f : GoFile) :
    skipCheck fs f = true ↔ (verify fs f = .Match ∨ verify fs f = .Unknown) := by
  unfold skipCheck verify
  cases hg : fsGet fs f.name with
  | none => simp
  | some bytes =>
    by_cases hsz : (bytes.length : Int) = f.size
    · by_cases hmd : f.md5 = ""
      · simp [hsz, hmd]
      · by_cases hx : md5Hex bytes = f.md5 <;> simp [hsz, hmd, hx]
    · simp [hsz]

theorem fsGet_fsSet_self (fs : Fs) (n : String) (b : Bytes) :
    fsGet (fsSet fs n b) n = some b := by
  simp [fsGet, fsSet, List.find?]

theorem hrLoop_stop (u : String) (us : List String) (size : Int) (h : size < 1024) :
    hrLoop (u :: us) size = goPad3 size ++ " " ++ u := by
  simp [hrLoop, h]

theorem hrLoop_step (u : String) (us : List String) (size : Int) (h : ¬ size < 1024) :
    hrLoop (u :: us) size = hrLoop us (size / 1024) := by
  simp [hrLoop, h]

theorem marshellSpecials_contains (c : Char) :
    marshellSpecials.contains c =
      (c == ' ' || c == '?' || c == '[' || c == ']' || c == '#' || c == '$' || c == Char.ofNat 34) := by
  simp only [marshellSpecials, List.contains_cons, List.contains_nil, Bool.or_false, Bool.or_assoc]

theorem marshellArgs_eq_map (l : List String) : marshellArgs l = l.map claimQuoteArg := by
  induction l with
  | nil => rfl
  | cons a rest ih =>
    simp only [marshellArgs, claimQuoteArg, List.map_cons, ih, marshellSpecials_contains]

theorem md5Hex_ne_empty (msg : Bytes) : md5Hex msg ≠ "" := by
  unfold md5Hex md5Digest le4
  intro h
  rw [string_eq_iff_toList] at h
  simp [byteHex] at h

theorem retry_success3 (resp : Nat → HResp) (url : String) (c0 c1 : Nat) (b0 b1 body : Bytes)
    (h0 : resp 0 = HResp.ok c0 b0) (hc0 : c0 ≠ 200)
    (h1 : resp 1 = HResp.ok c1 b1) (hc1 : c1 ≠ 200)
    (h2 : resp 2 = HResp.ok 200 body) :
    retryLoop resp url =
      RetryRes.proceed (List.replicate 3 (NetEv.get url)) (2 ^ 0 + 2 ^ 1) 3 body true := by
  unfold retryLoop
  rw [show List.range 10 = [0, 1, 2, 3, 4, 5, 6, 7, 8, 9] from rfl]
  simp only [retryList, h0, h1, h2, if_neg hc0, if_neg hc1, if_pos rfl]
  norm_num
  rfl

theorem retry_err0 (resp : Nat → HResp) (url : String) (h0 : resp 0 = HResp.err) :
    retryLoop resp url = RetryRes.fatal [NetEv.get url] 0 1 := by
  unfold retryLoop
  rw [show List.range 10 = [0, 1, 2, 3, 4, 5, 6, 7, 8, 9] from rfl]
  simp only [retryList, h0]
  rfl

theorem retry_err2 (resp : Nat → HResp) (url : String) (c0 c1 : Nat) (b0 b1 : Bytes)
    (h0 : resp 0 = HResp.ok c0 b0) (hc0 : c0 ≠ 200)
    (h1 : resp 1 = HResp.ok c1 b1) (hc1 : c1 ≠ 200)
    (h2 : resp 2 = HResp.err) :
    retryLoop resp url = RetryRes.fatal (List.replicate 3 (NetEv.get url)) (2 ^ 0 + 2 ^ 1) 3 := by
  unfold retryLoop
  rw [show List.range 10 = [0, 1, 2, 3, 4, 5, 6, 7, 8, 9] from rfl]
  simp only [retryList, h0, h1, h2, if_neg hc0, if_neg hc1]
  norm_num
  rfl

theorem retry_exhaust (resp : Nat → HResp) (url : String)
    (h : ∀ i, i < 10 → ∃ c b, resp i = HResp.ok c b ∧ c ≠ 200) :
    ∃ body, retryLoop resp url =
      RetryRes.proceed (List.replicate 10 (NetEv.get url)) 1023 10 body false := by
  obtain ⟨c0, b0, h0, n0⟩ := h 0 (by norm_num)
  obtain ⟨c1, b1, h1, n1⟩ := h 1 (by norm_num)
  obtain ⟨c2, b2, h2, n2⟩ := h 2 (by norm_num)
  obtain ⟨c3, b3, h3, n3⟩ := h 3 (by norm_num)
  obtain ⟨c4, b4, h4, n4⟩ := h 4 (by norm_num)
  obtain ⟨c5, b5, h5, n5⟩ := h 5 (by norm_num)
  obtain ⟨c6, b6, h6, n6⟩ := h 6 (by norm_num)
  obtain ⟨c7, b7, h7, n7⟩ := h 7 (by norm_num)
  obtain ⟨c8, b8, h8, n8⟩ := h 8 (by norm_num)
  obtain ⟨c9, b9, h9, n9⟩ := h 9 (by norm_num)
  refine ⟨b9, ?_⟩
  unfold retryLoop
  rw [show List.range 10 = [0, 1, 2, 3, 4, 5, 6, 7, 8, 9] from rfl]
  simp only [retryList, h0, h1, h2, h3, h4, h5, h6, h7, h8, h9,
    if_neg n0, if_neg n1, if_neg n2, if_neg n3, if_neg n4, if_neg n5, if_neg n6,
    if_neg n7, if_neg n8, if_neg n9]
  norm_num
  rfl

theorem retry_one (resp : Nat → HResp) (url : String) (body : Bytes)
    (h0 : resp 0 = HResp.ok 200 body) :
    retryLoop resp url = RetryRes.proceed [NetEv.get url] 0 1 body true := by
  unfold retryLoop
  rw [show List.range 10 = [0, 1, 2, 3, 4, 5, 6, 7, 8, 9] from rfl]
  simp only [retryList, h0, if_pos rfl]
  rfl

theorem fetch_download (rm : Remote) (fs : Fs) (tid : Int) (f : GoFile) (b1 b2 body : Bytes)
    (hs : skipCheck fs f = false)
    (hr : rm.resolveResp f.id = HResp.ok 200 b1)
    (hv : rm.validateResp f.id = HResp.ok 200 b2)
    (hf : rm.fetchResp f.id 0 = HResp.ok 200 body) :
    fetchFile rm fs tid f = StepResult.ok
      ⟨if md5Hex body = f.md5 then Outcome.Downloaded else Outcome.ChecksumMismatch,
       fsAppend fs f.name body,
       [NetEv.resolve tid f.id, NetEv.get (rm.resolveData f.id),
        NetEv.get (rm.resolveData f.id)], 0⟩ := by
  have hretry := retry_one (rm.fetchResp f.id) (rm.resolveData f.id) body hf
  unfold fetchFile
  simp only [hs, hr, hv, hretry, if_pos rfl]
  rfl

theorem fetch_skip (rm : Remote) (fs : Fs) (tid : Int) (f : GoFile)
    (h : verify fs f = VerifyResult.Match ∨ verify fs f = VerifyResult.Unknown) :
    fetchFile rm fs tid f = StepResult.ok ⟨Outcome.Skipped, fs, [], 0⟩ := by
  unfold fetchFile
  rw [if_pos ((skipCheck_eq_true_iff fs f).mpr h)]

theorem fetch_exhaust_nonfatal (rm : Remote) (fs : Fs) (tid : Int) (f : GoFile)
    (hs : skipCheck fs f = false)
    (h1 : ∃ b, rm.resolveResp f.id = HResp.ok 200 b)
    (h2 : ∃ b, rm.validateResp f.id = HResp.ok 200 b)
    (h3 : ∀ i, i < 10 → ∃ c b, rm.fetchResp f.id i = HResp.ok c b ∧ c ≠ 200) :
    ∃ out : FetchOut, fetchFile rm fs tid f = StepResult.ok out ∧ out.slept = 1023 := by
  obtain ⟨b1, hb1⟩ := h1
  obtain ⟨b2, hb2⟩ := h2
  obtain ⟨body, hbody⟩ := retry_exhaust (rm.fetchResp f.id) (rm.resolveData f.id) h3
  refine ⟨⟨if md5Hex body = f.md5 then Outcome.Downloaded else Outcome.ChecksumMismatch,
    fsAppend fs f.name body,
    [NetEv.resolve tid f.id, NetEv.get (rm.resolveData f.id)] ++
      List.replicate 10 (NetEv.get (rm.resolveData f.id)), 1023⟩, ?_, rfl⟩
  unfold fetchFile
  simp only [hs, hb1, hb2, hbody, if_pos rfl]
  rfl

/-! Claim theorems. -/

/-- C3: for every File with a non-empty expected checksum whose on-disk size
equals the expected size, verify returns Match if and only if the MD5
digest of the content, rendered as lowercase hex, equals the expected
checksum. -/
theorem c3_verify_match_iff (fs : Fs) (f : GoFile) (bytes : Bytes)
    (hb : fsGet fs f.name = some bytes) (hsz : (bytes.length : Int) = f.size)
    (hmd : f.md5 ≠ "") :
    verify fs f = VerifyResult.Match ↔ md5Hex bytes = f.md5 := by
  unfold verify
  rw [hb]
  simp only [hsz, if_pos rfl, if_neg hmd]
  by_cases hx : md5Hex bytes = f.md5 <;> simp [hx]

/-- C4: for every File whose expected checksum is empty and whose on-disk
size equals the expected size, verify reports Unknown, never Mismatch, and
the download loop skips the file without any network access. -/
theorem c4_empty_checksum (rm : Remote) (fs : Fs) (tid : Int) (f : GoFile) (bytes : Bytes)
    (hb : fsGet fs f.name = some bytes) (hsz : (bytes.length : Int) = f.size)
    (hmd : f.md5 = "") :
    verify fs f = VerifyResult.Unknown ∧ verify fs f ≠ VerifyResult.Mismatch ∧
      fetchFile rm fs tid f = StepResult.ok ⟨Outcome.Skipped, fs, [], 0⟩ := by
  have hv : verify fs f = VerifyResult.Unknown := by
    unfold verify
    rw [hb]
    simp [hsz, hmd]
  have hs : skipCheck fs f = true := by
    unfold skipCheck
    rw [hb]
    simp [hsz, hmd]
  refine ⟨hv, by simp [hv], ?_⟩
  unfold fetchFile
  rw [if_pos hs]

/-- C5 counterexample: the catalog holds a Job with identifier 42 and the
hint is the numeral 42, which parses successfully; the claim says the
Selector first tries an exact numeric match and therefore selects that Job,
but the source guards the identifier loop with err non-nil, so a hint that
parses is never matched by identifier; the substring search against the
name Example also fails and the Selector reports the hint as not found. -/
theorem c5_counterexample :
    findTorrent [⟨42, "Example", []⟩] "42" = SelectResult.notFound "42" ∧
      findTorrent [⟨42, "Example", []⟩] "42" ≠ SelectResult.found 42 := by
  constructor <;> decide

/-- C5 (amended): the Selector runs the identifier comparison only when the
hint fails to parse as a 32-bit integer (the guard in the source is err
non-nil), so a hint that does parse is resolved solely by a substring
search against Job display names (first match wins, substring rather than
exact-or-glob); and when neither the identifier comparison nor the
substring search matches any Job, the Selector fails naming the hint. -/
theorem c5_selector :
    (∀ (ts : List Torrent) (hint : String), (parseInt32 hint).2 = true →
      findTorrent ts hint =
        match ts.find? (fun t => goContains t.name hint) with
        | some t => SelectResult.found t.id
        | none => SelectResult.notFound hint) ∧
    (∀ (ts : List Torrent) (hint : String),
      ts.find? (fun t => t.id == (parseInt32 hint).1) = none →
      ts.find? (fun t => goContains t.name hint) = none →
      findTorrent ts hint = SelectResult.notFound hint) := by
  constructor
  · intro ts hint h
    unfold findTorrent
    simp [h]
  · intro ts hint h1 h2
    unfold findTorrent
    by_cases hok : (parseInt32 hint).2 = false
    · simp [hok, h1, h2]
    · simp [hok, h2]

/-- C6: the glob matcher used for name selection accepts the star pattern
against a matching name, rejects it against a non-matching one, and a hint
with no glob metacharacters matches a name only when the strings are
identical. -/
theorem c6_glob_laws :
    Glob "*.mkv" "movie.mkv" = true ∧
    Glob "*.mkv" "movie.mp4" = false ∧
    (∀ hint name : String,
      (∀ c ∈ hint.toList, c ≠ '*' ∧ c ≠ '?' ∧ c ≠ '[' ∧ c ≠ ']') →
      (Glob hint name = true ↔ hint = name)) := by
  refine ⟨by decide, by decide, ?_⟩
  intro hint name h
  have hstar : star ∉ hint.toList := fun hm => ((h _ hm).1) rfl
  unfold Glob
  rw [goGlobChars_no_star _ _ hstar]
  exact (string_eq_iff_toList hint name).symm

/-- C8 counterexample: the Go format verb of the formatter has width 3 and
precision zero, and an integer zero with precision zero renders as the
empty digit string, so size zero formats as four spaces and a B, not as the
claimed two spaces, zero, space, B. -/
theorem c8_counterexample :
    HumanReadableSize 0 = "    B" ∧ HumanReadableSize 0 ≠ "  0 B" := by
  constructor <;> decide

/-- C8 (amended): the size formatter divides repeatedly by 1024 and renders
the first unit where the remaining value is below 1024 as a 3-character
space-padded integer magnitude whose digit string is empty when the value
is zero (so formatSize 0 is four spaces and a B); formatSize 1536 is
1 KiB and formatSize of 1024 to the 4th is 1 TiB as claimed; a value too
large for every listed unit renders as the sentinel. The divisors below
are the powers 1024, 1024 squared, cubed and to the 4th. -/
theorem c8_size_format :
    HumanReadableSize 0 = "    B" ∧
    HumanReadableSize 1536 = "  1 KiB" ∧
    HumanReadableSize (1024 ^ 4) = "  1 TiB" ∧
    (∀ n : Int, n < 1024 → HumanReadableSize n = goPad3 n ++ " B") ∧
    (∀ n : Int, 1024 ≤ n → n < 1048576 →
      HumanReadableSize n = goPad3 (n / 1024) ++ " KiB") ∧
    (∀ n : Int, 1048576 ≤ n → n < 1073741824 →
      HumanReadableSize n = goPad3 (n / 1048576) ++ " MiB") ∧
    (∀ n : Int, 1073741824 ≤ n → n < 1099511627776 →
      HumanReadableSize n = goPad3 (n / 1073741824) ++ " GiB") ∧
    (∀ n : Int, 1099511627776 ≤ n → n < 1125899906842624 →
      HumanReadableSize n = goPad3 (n / 1099511627776) ++ " TiB") ∧
    (∀ n : Int, 1125899906842624 ≤ n → HumanReadableSize n = "?iB") := by
  refine ⟨by decide, by decide, by norm_num; decide, ?_, ?_, ?_, ?_, ?_, ?_⟩
  · intro n h
    unfold HumanReadableSize hrUnits
    rw [hrLoop_stop _ _ _ h]
    rw [String.append_assoc]
    congr 1
  · intro n h1 h2
    unfold HumanReadableSize hrUnits
    rw [hrLoop_step _ _ _ (by omega), hrLoop_stop _ _ _ (by omega), String.append_assoc]
    congr 1
  · intro n h1 h2
    unfold HumanReadableSize hrUnits
    rw [hrLoop_step _ _ _ (by omega), hrLoop_step _ _ _ (by omega),
      show n / 1024 / 1024 = n / 1048576 from by omega,
      hrLoop_stop _ _ _ (by omega), String.append_assoc]
    congr 1
  · intro n h1 h2
    unfold HumanReadableSize hrUnits
    rw [hrLoop_step _ _ _ (by omega), hrLoop_step _ _ _ (by omega),
      hrLoop_step _ _ _ (by omega),
      show n / 1024 / 1024 / 1024 = n / 1073741824 from by omega,
      hrLoop_stop _ _ _ (by omega), String.append_assoc]
    congr 1
  · intro n h1 h2
    unfold HumanReadableSize hrUnits
    rw [hrLoop_step _ _ _ (by omega), hrLoop_step _ _ _ (by omega),
      hrLoop_step _ _ _ (by omega), hrLoop_step _ _ _ (by omega),
      show n / 1024 / 1024 / 1024 / 1024 = n / 1099511627776 from by omega,
      hrLoop_stop _ _ _ (by omega), String.append_assoc]
    congr 1
  · intro n h
    unfold HumanReadableSize hrUnits
    rw [hrLoop_step _ _ _ (by omega), hrLoop_step _ _ _ (by omega),
      hrLoop_step _ _ _ (by omega), hrLoop_step _ _ _ (by omega),
      hrLoop_step _ _ _ (by omega)]
    rfl

/-- C10: Marshell joins the arguments with single spaces after rewriting
each one by the quoting rule (double quotes around an argument holding a
single quote, else single quotes around an argument holding a space,
question mark, bracket, hash, dollar or double quote, else unchanged), and
it stores the rewritten arguments back into the argument array of the
command, so the command observed after the call carries the quoted
arguments rather than the originals. -/
theorem c10_marshell (cmd : Cmd) :
    Marshell cmd =
      (String.intercalate " " (cmd.args.map claimQuoteArg),
        ⟨cmd.args.map claimQuoteArg⟩) := by
  unfold Marshell
  rw [marshellArgs_eq_map]

set_option maxRecDepth 10000 in
/-- C1 counterexample: all ten download attempts return status 500, yet the
engine does not abort; the loop exits after sleeping 1023 cumulative
seconds (including two to the 9th after the final failed attempt) and the
program streams the body of the last failed response into the destination
file, ending in a non-fatal per-file checksum mismatch. The claim says
exhausting all attempts reports the last failure as fatal. -/
theorem c1_counterexample :
    fetchFile rmFail500 [] 1 sampleFile =
      StepResult.ok ⟨Outcome.ChecksumMismatch, [("a", [98])],
        [NetEv.resolve 1 7, NetEv.get "u"] ++ List.replicate 10 (NetEv.get "u"), 1023⟩ := by
  decide

/-- C1 (amended): the retry loop attempts the GET up to 10 times; after a
non-200 response on attempt i (from 0) it sleeps two to the i seconds,
including after the final attempt; a transport error aborts immediately,
whether on the first attempt or mid-retry, and is never retried; a URL
failing on the first 2 attempts and succeeding on the 3rd succeeds after
exactly 3 attempts with cumulative backoff of two to the 0 plus two to
the 1 seconds; but exhausting all 10 attempts does not report a fatal
error: the loop falls through after 1023 seconds of cumulative backoff and
the engine proceeds to stream the last response body non-fatally. -/
theorem c1_retry_behavior :
    (∀ (resp : Nat → HResp) (url : String) (c0 c1 : Nat) (b0 b1 body : Bytes),
      resp 0 = HResp.ok c0 b0 → c0 ≠ 200 →
      resp 1 = HResp.ok c1 b1 → c1 ≠ 200 →
      resp 2 = HResp.ok 200 body →
      retryLoop resp url =
        RetryRes.proceed (List.replicate 3 (NetEv.get url)) (2 ^ 0 + 2 ^ 1) 3 body true) ∧
    (∀ (resp : Nat → HResp) (url : String), resp 0 = HResp.err →
      retryLoop resp url = RetryRes.fatal [NetEv.get url] 0 1) ∧
    (∀ (resp : Nat → HResp) (url : String) (c0 c1 : Nat) (b0 b1 : Bytes),
      resp 0 = HResp.ok c0 b0 → c0 ≠ 200 →
      resp 1 = HResp.ok c1 b1 → c1 ≠ 200 →
      resp 2 = HResp.err →
      retryLoop resp url = RetryRes.fatal (List.replicate 3 (NetEv.get url)) (2 ^ 0 + 2 ^ 1) 3) ∧
    (∀ (resp : Nat → HResp) (url : String),
      (∀ i, i < 10 → ∃ c b, resp i = HResp.ok c b ∧ c ≠ 200) →
      ∃ body, retryLoop resp url =
        RetryRes.proceed (List.replicate 10 (NetEv.get url)) 1023 10 body false) ∧
    (∀ (rm : Remote) (fs : Fs) (tid : Int) (f : GoFile),
      skipCheck fs f = false →
      (∃ b, rm.resolveResp f.id = HResp.ok 200 b) →
      (∃ b, rm.validateResp f.id = HResp.ok 200 b) →
      (∀ i, i < 10 → ∃ c b, rm.fetchResp f.id i = HResp.ok c b ∧ c ≠ 200) →
      ∃ out : FetchOut, fetchFile rm fs tid f = StepResult.ok out ∧ out.slept = 1023) :=
  ⟨retry_success3, retry_err0, retry_err2, retry_exhaust, fetch_exhaust_nonfatal⟩

/-- C1 witness: the amended retry behavior evaluated on concrete response
schedules and on the concrete all-failing remote. -/
theorem c1_retry_behavior_witness :
    retryLoop resp3 "u" =
      RetryRes.proceed (List.replicate 3 (NetEv.get "u")) (2 ^ 0 + 2 ^ 1) 3 [97] true ∧
    retryLoop respErr "u" = RetryRes.fatal [NetEv.get "u"] 0 1 ∧
    retryLoop respErrAt2 "u" =
      RetryRes.fatal (List.replicate 3 (NetEv.get "u")) (2 ^ 0 + 2 ^ 1) 3 ∧
    (∃ body, retryLoop respAll500 "u" =
      RetryRes.proceed (List.replicate 10 (NetEv.get "u")) 1023 10 body false) ∧
    (∃ out : FetchOut, fetchFile rmFail500 [] 1 sampleFile = StepResult.ok out ∧
      out.slept = 1023) :=
  ⟨c1_retry_behavior.1 resp3 "u" 500 500 [] [] [97] rfl (by decide) rfl (by decide) rfl,
   c1_retry_behavior.2.1 respErr "u" rfl,
   c1_retry_behavior.2.2.1 respErrAt2 "u" 500 500 [] [] rfl (by decide) rfl (by decide) rfl,
   c1_retry_behavior.2.2.2.1 respAll500 "u" (fun _ _ => ⟨500, [98], rfl, by decide⟩),
   c1_retry_behavior.2.2.2.2 rmFail500 [] 1 sampleFile (by decide)
     ⟨[], rfl⟩ ⟨[], rfl⟩ (fun _ _ => ⟨500, [98], rfl, by decide⟩)⟩

/-- C2: when the pre-flight integrity check reports Match or Unknown the
download loop returns Skipped with no network events and an unchanged
filesystem, for every remote; and after a successful download of a correct
body into an absent destination, a second invocation against the same
destination yields Skipped with no network access. -/
theorem c2_skip_and_idempotence :
    (∀ (rm : Remote) (fs : Fs) (tid : Int) (f : GoFile),
      (verify fs f = VerifyResult.Match ∨ verify fs f = VerifyResult.Unknown) →
      fetchFile rm fs tid f = StepResult.ok ⟨Outcome.Skipped, fs, [], 0⟩) ∧
    (∀ (rm : Remote) (fs : Fs) (tid : Int) (f : GoFile) (b1 b2 body : Bytes),
      fsGet fs f.name = none →
      rm.resolveResp f.id = HResp.ok 200 b1 →
      rm.validateResp f.id = HResp.ok 200 b2 →
      rm.fetchResp f.id 0 = HResp.ok 200 body →
      (body.length : Int) = f.size →
      f.md5 = md5Hex body →
      fetchFile rm fs tid f = StepResult.ok
        ⟨Outcome.Downloaded, fsSet fs f.name body,
         [NetEv.resolve tid f.id, NetEv.get (rm.resolveData f.id),
          NetEv.get (rm.resolveData f.id)], 0⟩ ∧
      fetchFile rm (fsSet fs f.name body) tid f =
        StepResult.ok ⟨Outcome.Skipped, fsSet fs f.name body, [], 0⟩) := by
  constructor
  · exact fetch_skip
  · intro rm fs tid f b1 b2 body hnone hr hv hf hlen hmd5
    have hs : skipCheck fs f = false := by
      unfold skipCheck
      rw [hnone]
    have happ : fsAppend fs f.name body = fsSet fs f.name body := by
      unfold fsAppend
      rw [hnone]
      simp
    have hmd5e : f.md5 ≠ "" := by
      rw [hmd5]
      exact md5Hex_ne_empty body
    constructor
    · have hd := fetch_download rm fs tid f b1 b2 body hs hr hv hf
      rw [hd, happ]
      simp [hmd5.symm]
    · have hv2 : verify (fsSet fs f.name body) f = VerifyResult.Match := by
        unfold verify
        rw [fsGet_fsSet_self]
        simp [hlen, hmd5e, hmd5.symm]
      exact fetch_skip rm _ tid f (Or.inl hv2)

set_option maxRecDepth 10000 in
/-- C2 witness: the skip law and the two-call idempotence law evaluated on
the concrete sample file and remote. -/
theorem c2_witness :
    (fsGet [] sampleFile.name = none ∧ sampleFile.md5 = md5Hex [97] ∧
      verify [("a", [97])] sampleFile = VerifyResult.Match) ∧
    fetchFile rmOkA [("a", [97])] 1 sampleFile =
      StepResult.ok ⟨Outcome.Skipped, [("a", [97])], [], 0⟩ ∧
    (fetchFile rmOkA [] 1 sampleFile = StepResult.ok
        ⟨Outcome.Downloaded, fsSet [] sampleFile.name [97],
         [NetEv.resolve 1 sampleFile.id, NetEv.get (rmOkA.resolveData sampleFile.id),
          NetEv.get (rmOkA.resolveData sampleFile.id)], 0⟩ ∧
      fetchFile rmOkA (fsSet [] sampleFile.name [97]) 1 sampleFile =
        StepResult.ok ⟨Outcome.Skipped, fsSet [] sampleFile.name [97], [], 0⟩) :=
  ⟨⟨rfl, by decide, by decide⟩,
   c2_skip_and_idempotence.1 rmOkA [("a", [97])] 1 sampleFile (Or.inl (by decide)),
   c2_skip_and_idempotence.2 rmOkA [] 1 sampleFile [] [] [97] rfl rfl rfl rfl (by decide)
     (by decide)⟩

set_option maxRecDepth 10000 in
/-- C3 witness: the verify equivalence evaluated on a concrete one-byte
file whose digest matches. -/
theorem c3_witness :
    (fsGet [("a", [97])] sampleFile.name = some [97] ∧
      (([97] : Bytes).length : Int) = sampleFile.size ∧ sampleFile.md5 ≠ "") ∧
    (verify [("a", [97])] sampleFile = VerifyResult.Match ↔ md5Hex [97] = sampleFile.md5) :=
  ⟨⟨rfl, by decide, by decide⟩,
   c3_verify_match_iff [("a", [97])] sampleFile [97] rfl (by decide) (by decide)⟩

/-- C4 witness: the empty-checksum behavior evaluated on a concrete file
with no expected checksum. -/
theorem c4_witness :
    (fsGet [("b", [98])] fileNoMD5.name = some [98] ∧
      (([98] : Bytes).length : Int) = fileNoMD5.size ∧ fileNoMD5.md5 = "") ∧
    (verify [("b", [98])] fileNoMD5 = VerifyResult.Unknown ∧
      verify [("b", [98])] fileNoMD5 ≠ VerifyResult.Mismatch ∧
      fetchFile rmOkA [("b", [98])] 1 fileNoMD5 =
        StepResult.ok ⟨Outcome.Skipped, [("b", [98])], [], 0⟩) :=
  ⟨⟨rfl, by decide, rfl⟩,
   c4_empty_checksum rmOkA [("b", [98])] 1 fileNoMD5 [98] rfl (by decide) rfl⟩

/-- C5 witness: a numeric hint is resolved by the substring search, and a
hint matching nothing is reported not found by name. -/
theorem c5_selector_witness :
    ((parseInt32 "42").2 = true ∧
      findTorrent [⟨7, "has 42 inside", []⟩] "42" = SelectResult.found 7) ∧
    findTorrent [⟨7, "xyz", []⟩] "nothing" = SelectResult.notFound "nothing" := by
  refine ⟨⟨by decide, ?_⟩, ?_⟩
  · exact (c5_selector.1 [⟨7, "has 42 inside", []⟩] "42" (by decide)).trans (by decide)
  · exact c5_selector.2 [⟨7, "xyz", []⟩] "nothing" (by decide) (by decide)

/-- C6 witness: the no-metacharacter law evaluated at a concrete hint
against an equal and a different name. -/
theorem c6_glob_laws_witness :
    (∀ c ∈ "abc".toList, c ≠ '*' ∧ c ≠ '?' ∧ c ≠ '[' ∧ c ≠ ']') ∧
    (Glob "abc" "abc" = true ↔ "abc" = "abc") ∧
    (Glob "abc" "abd" = true ↔ "abc" = "abd") :=
  ⟨by decide, c6_glob_laws.2.2 "abc" "abc" (by decide), c6_glob_laws.2.2 "abc" "abd" (by decide)⟩

/-- C7: a transfer whose streamed digest differs from the expected checksum
yields the non-fatal per-file outcome ChecksumMismatch, and any non-fatal
per-file result lets the batch continue with the remaining files instead of
aborting the run. -/
theorem c7_mismatch_nonfatal :
    (∀ (rm : Remote) (fs : Fs) (tid : Int) (f : GoFile) (b1 b2 body : Bytes),
      skipCheck fs f = false →
      rm.resolveResp f.id = HResp.ok 200 b1 →
      rm.validateResp f.id = HResp.ok 200 b2 →
      rm.fetchResp f.id 0 = HResp.ok 200 body →
      md5Hex body ≠ f.md5 →
      fetchFile rm fs tid f = StepResult.ok
        ⟨Outcome.ChecksumMismatch, fsAppend fs f.name body,
         [NetEv.resolve tid f.id, NetEv.get (rm.resolveData f.id),
          NetEv.get (rm.resolveData f.id)], 0⟩) ∧
    (∀ (rm : Remote) (tid : Int) (fs : Fs) (f : GoFile) (rest : List GoFile) (fo : FetchOut),
      fetchFile rm fs tid f = StepResult.ok fo →
      runBatch rm tid fs (f :: rest) = consRes fo.outcome (runBatch rm tid fo.fs rest)) := by
  constructor
  · intro rm fs tid f b1 b2 body hs hr hv hf hne
    have hd := fetch_download rm fs tid f b1 b2 body hs hr hv hf
    rw [hd]
    simp [hne]
  · intro rm tid fs f rest fo h
    simp only [runBatch, h]

set_option maxRecDepth 10000 in
/-- C7 witness: the mismatch outcome and the batch continuation evaluated
on a concrete remote serving a wrong body. -/
theorem c7_witness :
    (skipCheck [] sampleFile = false ∧ md5Hex [98] ≠ sampleFile.md5) ∧
    fetchFile rmWrong [] 1 sampleFile = StepResult.ok
      ⟨Outcome.ChecksumMismatch, fsAppend [] sampleFile.name [98],
       [NetEv.resolve 1 sampleFile.id, NetEv.get (rmWrong.resolveData sampleFile.id),
        NetEv.get (rmWrong.resolveData sampleFile.id)], 0⟩ ∧
    runBatch rmWrong 1 [] [sampleFile] =
      consRes Outcome.ChecksumMismatch
        (runBatch rmWrong 1 (fsAppend [] sampleFile.name [98]) []) :=
  ⟨⟨by decide, by decide⟩,
   c7_mismatch_nonfatal.1 rmWrong [] 1 sampleFile [] [] [98] (by decide) rfl rfl rfl (by decide),
   c7_mismatch_nonfatal.2 rmWrong 1 [] sampleFile []
     ⟨Outcome.ChecksumMismatch, fsAppend [] sampleFile.name [98],
      [NetEv.resolve 1 sampleFile.id, NetEv.get "u", NetEv.get "u"], 0⟩ (by decide)⟩

/-- C8 witness: the KiB band and the sentinel band evaluated at concrete
sizes. -/
theorem c8_size_format_witness :
    ((1024 : Int) ≤ 1536 ∧ (1536 : Int) < 1048576) ∧
    HumanReadableSize 1536 = goPad3 (1536 / 1024) ++ " KiB" ∧
    HumanReadableSize 1125899906842624 = "?iB" :=
  ⟨⟨by norm_num, by norm_num⟩,
   c8_size_format.2.2.2.2.1 1536 (by norm_num) (by norm_num),
   c8_size_format.2.2.2.2.2.2.2.2 1125899906842624 (by norm_num)⟩

/-- C9 counterexample: in no-download mode the loop still issues a GET
against the resolved URL (the validation request whose body is closed
unread) before emitting the shell command, so a network fetch beyond link
resolution does occur; the claim says none occurs. -/
theorem c9_counterexample :
    processFileP1 rmP1ok true false 1 sampleFile =
      P1Res.ok [Ev1.resolve 1 7, Ev1.get "u", Ev1.mkdir ".",
        Ev1.emit "wget --continue --directory-prefix . --output-document a u\n"] ∧
    Ev1.get "u" ∈ evsOf (processFileP1 rmP1ok true false 1 sampleFile) := by
  constructor <;> decide

/-- C9 (amended): in no-download mode, for every selected file the loop
resolves the download link, issues one further GET against the resolved URL
whose body is discarded unread, creates the destination directory, and
emits the marshalled wget command line with its terminator; it never
executes the transfer command, so the file bytes are not downloaded. -/
theorem c9_no_download (rm : Remote) (tid : Int) (f : GoFile) (nulSep : Bool) (b1 b2 : Bytes)
    (h1 : rm.resolveResp f.id = HResp.ok 200 b1)
    (h2 : rm.validateResp f.id = HResp.ok 200 b2) :
    processFileP1 rm true nulSep tid f =
      P1Res.ok [Ev1.resolve tid f.id, Ev1.get (rm.resolveData f.id), Ev1.mkdir (goDir f.name),
        Ev1.emit ((Marshell ⟨wgetArgs f (rm.resolveData f.id)⟩).1 ++
          (if nulSep then String.mk [Char.ofNat 0] else "\n"))] ∧
    (∀ args : List String,
      Ev1.run args ∉ evsOf (processFileP1 rm true nulSep tid f)) := by
  have hp : processFileP1 rm true nulSep tid f =
      P1Res.ok [Ev1.resolve tid f.id, Ev1.get (rm.resolveData f.id), Ev1.mkdir (goDir f.name),
        Ev1.emit ((Marshell ⟨wgetArgs f (rm.resolveData f.id)⟩).1 ++
          (if nulSep then String.mk [Char.ofNat 0] else "\n"))] := by
    unfold processFileP1
    simp only [h1, h2, if_pos rfl, Bool.true_or]
    rfl
  refine ⟨hp, ?_⟩
  rw [hp]
  intro args hmem
  simp [evsOf] at hmem

/-- C9 witness: the no-download trace evaluated on the concrete remote and
sample file. -/
theorem c9_no_download_witness :
    (rmP1ok.resolveResp sampleFile.id = HResp.ok 200 [] ∧
      rmP1ok.validateResp sampleFile.id = HResp.ok 200 []) ∧
    (processFileP1 rmP1ok true false 1 sampleFile =
      P1Res.ok [Ev1.resolve 1 sampleFile.id, Ev1.get (rmP1ok.resolveData sampleFile.id),
        Ev1.mkdir (goDir sampleFile.name),
        Ev1.emit ((Marshell ⟨wgetArgs sampleFile (rmP1ok.resolveData sampleFile.id)⟩).1 ++
          (if false then String.mk [Char.ofNat 0] else "\n"))] ∧
      (∀ args : List String,
        Ev1.run args ∉ evsOf (processFileP1 rmP1ok true false 1 sampleFile))) :=
  ⟨⟨rfl, rfl⟩, c9_no_download rmP1ok 1 sampleFile false [] [] rfl rfl⟩

end Torbox
